import Mathlib

/-!
Shallow embedding of the request/response translation layer of the
kinsta-mcp repository: the HTTP client error mapping (src/kinsta/client.ts),
the client-instance cache (src/kinsta/client-factory.ts), the credential
loader (src/kinsta/auth.ts), and the envelope formatter (src/tools/utils.ts).
-/

namespace KinstaMcp

/-- JSON values, as produced by a successful `response.json()` call.
Objects are association lists of string keys to values. -/
inductive Json where
  | null : Json
  | bool (b : Bool) : Json
  | num (n : Int) : Json
  | str (s : String) : Json
  | arr (xs : List Json) : Json
  | obj (fields : List (String × Json)) : Json

/-- Property read `o[key]` on a parsed JSON object: the value bound to `key`,
or `none` when the key is absent (JavaScript `undefined`). `JSON.parse` keeps
the last binding for a duplicated key, so lookup scans from the right. -/
def jsGet (fields : List (String × Json)) (key : String) : Option Json :=
  match fields with
  | [] => none
  | (k, v) :: rest =>
      match jsGet rest key with
      | some w => some w
      | none => if k = key then some v else none

/-- Error codes of the client (src/kinsta/types.ts, `KinstaErrorCode`). -/
inductive KinstaErrorCode where
  | UNAUTHORIZED
  | FORBIDDEN
  | NOT_FOUND
  | RATE_LIMITED
  | VALIDATION_ERROR
  | SERVER_ERROR
  | NETWORK_ERROR
  | TIMEOUT
  | UNKNOWN
deriving DecidableEq

/-- Typed error for Kinsta API operations (src/kinsta/types.ts,
`KinstaClientError`). The first four fields are the constructor parameters
of the class as exported in src/kinsta/index.ts. The `apiMessage` field is
modelled from the spec: the current `types.ts` revision is not among the
source files (only a stale copy appended to index.ts, which predates the
field), while client.ts passes `apiMessage` as the fifth constructor
argument and client.test.ts (lines 205-239) asserts `error.apiMessage`
round-trips; the spec states "the raw API message is also preserved
separately on the Classified Error". -/
structure KinstaClientError where
  message : String
  code : KinstaErrorCode
  statusCode : Option Nat
  retryable : Bool
  apiMessage : Option String := none
deriving DecidableEq

/-- Extraction of the API-provided message from an error-response body
(src/kinsta/client.ts lines 137-147). The argument is the result of
`response.json()`: `none` when parsing threw (the catch swallows it and the
extraction proceeds without a message). On a parsed body, the code reads
`body["message"] ?? body["error"]` and keeps the value only when it is a
string. `??` skips JavaScript `undefined` (absent key) and `null`; a
property read on a non-object either yields `undefined` (string, number,
array receivers) or throws (null receiver, swallowed by the same catch),
so every non-object body yields no message. -/
def extractApiMessage (body : Option Json) : Option String :=
  match body with
  | none => none
  | some (Json.obj fields) =>
      let chosen :=
        match jsGet fields "message" with
        | none => jsGet fields "error"
        | some Json.null => jsGet fields "error"
        | some v => some v
      match chosen with
      | some (Json.str s) => some s
      | _ => none
  | some _ => none

/-- Status-code to classified-error mapping (src/kinsta/client.ts,
`mapHttpError`, lines 134-202). The `switch` on literal statuses is an
equality chain; `suffix` is `apiMessage ? ": " + apiMessage : ""`, where a
JavaScript string is truthy exactly when it is non-empty. -/
def mapHttpError (status : Nat) (body : Option Json) : KinstaClientError :=
  let apiMessage := extractApiMessage body
  let suffix :=
    match apiMessage with
    | some m => if m = "" then "" else ": " ++ m
    | none => ""
  if status = 401 then
    { message := "Invalid or expired API key" ++ suffix
      code := KinstaErrorCode.UNAUTHORIZED
      statusCode := some status
      retryable := false
      apiMessage := apiMessage }
  else if status = 403 then
    { message := "Your API key does not have permission to access this resource" ++ suffix
      code := KinstaErrorCode.FORBIDDEN
      statusCode := some status
      retryable := false
      apiMessage := apiMessage }
  else if status = 404 then
    { message := "Resource not found" ++ suffix
      code := KinstaErrorCode.NOT_FOUND
      statusCode := some status
      retryable := false
      apiMessage := apiMessage }
  else if status = 429 then
    { message := "Rate limit exceeded. Please wait before retrying." ++ suffix
      code := KinstaErrorCode.RATE_LIMITED
      statusCode := some status
      retryable := true
      apiMessage := apiMessage }
  else if 400 ≤ status ∧ status < 500 then
    { message := "Client error (" ++ toString status ++ ")" ++ suffix
      code := KinstaErrorCode.VALIDATION_ERROR
      statusCode := some status
      retryable := false
      apiMessage := apiMessage }
  else
    { message := "Server error (" ++ toString status ++ ")" ++ suffix
      code := KinstaErrorCode.SERVER_ERROR
      statusCode := some status
      retryable := true
      apiMessage := apiMessage }

/-- A value thrown by the transport (`fetch` rejection): either an
`Error` instance, carrying its `name` and `message`, or any other value. -/
inductive ThrownValue where
  | err (name : String) (message : String) : ThrownValue
  | nonError : ThrownValue

/-- Transport-exception to classified-error mapping (src/kinsta/client.ts,
`mapNetworkError`, lines 204-227). -/
def mapNetworkError (e : ThrownValue) : KinstaClientError :=
  match e with
  | ThrownValue.err name message =>
      if name = "AbortError" then
        { message := "Request timed out"
          code := KinstaErrorCode.TIMEOUT
          statusCode := none
          retryable := true
          apiMessage := none }
      else
        { message := "Network error: " ++ message
          code := KinstaErrorCode.NETWORK_ERROR
          statusCode := none
          retryable := false
          apiMessage := none }
  | ThrownValue.nonError =>
      { message := "Unknown error occurred"
        code := KinstaErrorCode.UNKNOWN
        statusCode := none
        retryable := false
        apiMessage := none }

/-- Discriminated result of a client call (src/kinsta/types.ts,
`KinstaResult<T>`), with the payload represented as JSON. -/
inductive KinstaResult where
  | success (data : Json) : KinstaResult
  | failure (e : KinstaClientError) : KinstaResult

/-- An HTTP response as the client observes it: its status code and the
outcome of parsing its body as JSON (`none` when `response.json()` throws).
The body is read at most once on each path through `request`. -/
structure ResponseData where
  status : Nat
  body : Option Json

/-- The WHATWG `Response.ok` flag: status in the inclusive range 200-299. -/
def respOk (status : Nat) : Bool :=
  decide (200 ≤ status) && decide (status ≤ 299)

/-- Behaviour of the single `fetch` call raced against the 30-second
timeout timer: the transport settles before the timer with a response or a
rejection, or it does not settle before the timer, in which case the timer
callback runs `controller.abort()` and the pending `fetch` rejects with an
`Error` named "AbortError" (the platform abort contract, exercised by the
test at src/kinsta/client.test.ts lines 270-294). -/
inductive FetchOutcome where
  | completes (resp : ResponseData) : FetchOutcome
  | throws (e : ThrownValue) : FetchOutcome
  | hangsPastTimeout : FetchOutcome

/-- Observable exit of one `request` call: the resolved envelope and
whether the timeout handle was cleared by the time the call resolved. -/
structure RequestExit where
  result : KinstaResult
  timerCleared : Bool

/-- The request/response cycle (src/kinsta/client.ts, `request`, lines
66-128), shorn of URL and header assembly, which no claim depends on and
which cannot affect the returned envelope. The try-body maps the response:
non-ok status goes to `mapHttpError`; an ok status parses the body, a parse
failure yielding the fixed UNKNOWN envelope (lines 107-121). The catch maps
any rejection through `mapNetworkError`, and the `finally` clears the
timeout handle on every exit path before the call resolves. -/
def request (outcome : FetchOutcome) : RequestExit :=
  let result :=
    match outcome with
    | FetchOutcome.completes resp =>
        if respOk resp.status then
          match resp.body with
          | some data => KinstaResult.success data
          | none =>
              KinstaResult.failure
                { message := "Received non-JSON response from the Kinsta API"
                  code := KinstaErrorCode.UNKNOWN
                  statusCode := some resp.status
                  retryable := false
                  apiMessage := none }
        else
          KinstaResult.failure (mapHttpError resp.status resp.body)
    | FetchOutcome.throws e => KinstaResult.failure (mapNetworkError e)
    | FetchOutcome.hangsPastTimeout =>
        KinstaResult.failure (mapNetworkError (ThrownValue.err "AbortError" "This operation was aborted"))
  { result := result, timerCleared := true }

/-- The slice of the process environment the Kinsta module reads. A field is
`none` when the variable is unset (JavaScript `undefined`) and `some s`
when it is set to `s`, which may be the empty string. -/
structure Env where
  KINSTA_API_KEY : Option String
  KINSTA_COMPANY_ID : Option String
  KINSTA_API_BASE_URL : Option String
deriving DecidableEq

/-- JavaScript truthiness of a `string | undefined` value: truthy exactly
when it is a set, non-empty string. -/
def truthyStr (v : Option String) : Bool :=
  match v with
  | none => false
  | some s => s != ""

/-- Default API root (src/constants.ts, `KINSTA_API_BASE_URL`). -/
def KINSTA_API_BASE_URL : String := "https://api.kinsta.com/v2"

/-- Sub-kinds of credential-loading failures (src/kinsta/auth.ts,
`KinstaAuthError.code`). -/
inductive KinstaAuthErrorCode where
  | NO_API_KEY
  | NO_COMPANY_ID
deriving DecidableEq

/-- Credential-loading failure (src/kinsta/auth.ts, `KinstaAuthError`). -/
structure KinstaAuthError where
  message : String
  code : KinstaAuthErrorCode
deriving DecidableEq

/-- Message thrown for a missing API key (src/kinsta/auth.ts lines 349-353). -/
def apiKeyRequiredMessage : String :=
  "KINSTA_API_KEY environment variable is required. Generate one in MyKinsta > Company settings > API Keys."

/-- Message thrown for a missing company ID (src/kinsta/auth.ts lines 358-362). -/
def companyIdRequiredMessage : String :=
  "KINSTA_COMPANY_ID environment variable is required. Find it in MyKinsta under Company settings."

/-- Client configuration (src/kinsta/types.ts, `KinstaConfig`). -/
structure KinstaConfig where
  apiKey : String
  companyId : String
  baseUrl : String
deriving DecidableEq

/-- Credential loading (src/kinsta/auth.ts, `loadKinstaConfig`, appended to
src/kinsta/client.test.ts at lines 346-368): throws — here, returns
`Except.error` — when `!apiKey` (unset or empty) and then when
`!companyId`; otherwise the base URL is the override variable when set
(`??` keeps a set empty string) or the production default. -/
def loadKinstaConfig (env : Env) : Except KinstaAuthError KinstaConfig :=
  if truthyStr env.KINSTA_API_KEY = false then
    Except.error { message := apiKeyRequiredMessage, code := KinstaAuthErrorCode.NO_API_KEY }
  else if truthyStr env.KINSTA_COMPANY_ID = false then
    Except.error { message := companyIdRequiredMessage, code := KinstaAuthErrorCode.NO_COMPANY_ID }
  else
    Except.ok
      { apiKey := env.KINSTA_API_KEY.getD ""
        companyId := env.KINSTA_COMPANY_ID.getD ""
        baseUrl := env.KINSTA_API_BASE_URL.getD KINSTA_API_BASE_URL }

/-- Configured check (src/kinsta/auth.ts, `isKinstaConfigured`): both
mandatory variables set and non-empty. -/
def isKinstaConfigured (env : Env) : Bool :=
  truthyStr env.KINSTA_API_KEY && truthyStr env.KINSTA_COMPANY_ID

/-- The trailing-slash normalization the client constructor applies to the
base URL: `config.baseUrl.replace(/\/+$/, "")` (src/kinsta/client.ts
line 52). -/
def stripTrailingSlashes (s : String) : String :=
  String.mk ((s.data.reverse.dropWhile (fun c => c == '/')).reverse)

/-- A constructed `KinstaClient` instance. The `id` field models reference
identity: each run of the constructor allocates a fresh object, so two
constructions never compare reference-equal. -/
structure KinstaClientHandle where
  id : Nat
  apiKey : String
  companyId : String
  baseUrl : String
deriving DecidableEq

/-- The `KinstaClient` constructor (src/kinsta/client.ts lines 49-53) run
as allocation number `id`: copies the credentials and normalizes the base
URL. -/
def mkKinstaClient (id : Nat) (config : KinstaConfig) : KinstaClientHandle :=
  { id := id
    apiKey := config.apiKey
    companyId := config.companyId
    baseUrl := stripTrailingSlashes config.baseUrl }

/-- Configuration fingerprint (src/kinsta/client-factory.ts,
`getConfigHash`, lines 32-34): the three variables, each replaced by `""`
when unset (`?? ""`), joined with `":"` in a fixed order. Total by
construction. -/
def getConfigHash (env : Env) : String :=
  env.KINSTA_API_KEY.getD "" ++ ":" ++ env.KINSTA_COMPANY_ID.getD "" ++ ":" ++ env.KINSTA_API_BASE_URL.getD ""

/-- The module-level cache slots of src/kinsta/client-factory.ts
(`cachedClient`, `cachedConfigHash`, lines 29-30), plus an allocation
counter giving constructed clients their reference identity. -/
structure FactoryState where
  cachedClient : Option KinstaClientHandle
  cachedConfigHash : Option String
  nextId : Nat
deriving DecidableEq

/-- Result of `getKinstaClient` (src/kinsta/client-factory.ts,
`KinstaClientResult`). -/
inductive KinstaClientResult where
  | success (client : KinstaClientHandle) : KinstaClientResult
  | failure (error : String) : KinstaClientResult
deriving DecidableEq

/-- Outcome of the `loadKinstaConfig()` call inside the factory's `try`:
a configuration, a thrown `KinstaAuthError`, a thrown ordinary `Error`
(carrying its message), or a thrown non-`Error` value. -/
inductive LoaderOutcome where
  | ok (config : KinstaConfig) : LoaderOutcome
  | authError (e : KinstaAuthError) : LoaderOutcome
  | thrownError (message : String) : LoaderOutcome
  | thrownNonError : LoaderOutcome
deriving DecidableEq

/-- The cache-miss path of the factory (src/kinsta/client-factory.ts,
`getKinstaClient`, lines 54-70), parametrized by the outcome the
credential loader produces. A loader success constructs and caches a fresh
client alongside the new hash; any loader throw lands in the catch, which
clears both cache slots and returns the string the catch computes: the
`KinstaAuthError` message, an ordinary `Error` message, or the fixed
fallback for a thrown non-`Error` value. -/
def getKinstaClientMiss (loader : LoaderOutcome) (hash : String) (st : FactoryState) :
    KinstaClientResult × FactoryState :=
  match loader with
  | LoaderOutcome.ok config =>
      let client := mkKinstaClient st.nextId config
      (KinstaClientResult.success client,
       { cachedClient := some client, cachedConfigHash := some hash, nextId := st.nextId + 1 })
  | LoaderOutcome.authError e =>
      (KinstaClientResult.failure e.message,
       { cachedClient := none, cachedConfigHash := none, nextId := st.nextId })
  | LoaderOutcome.thrownError message =>
      (KinstaClientResult.failure message,
       { cachedClient := none, cachedConfigHash := none, nextId := st.nextId })
  | LoaderOutcome.thrownNonError =>
      (KinstaClientResult.failure "Unknown auth error",
       { cachedClient := none, cachedConfigHash := none, nextId := st.nextId })

/-- The factory body (src/kinsta/client-factory.ts, `getKinstaClient`,
lines 48-70): a cache hit requires `cachedClient` truthy (an object is
always truthy, so: present) and `cachedConfigHash === hash`; anything else
takes the miss path. -/
def getKinstaClientCore (loader : LoaderOutcome) (hash : String) (st : FactoryState) :
    KinstaClientResult × FactoryState :=
  match st.cachedClient, st.cachedConfigHash with
  | some client, some storedHash =>
      if storedHash = hash then
        (KinstaClientResult.success client, st)
      else
        getKinstaClientMiss loader hash st
  | _, _ => getKinstaClientMiss loader hash st

/-- The outcome `loadKinstaConfig()` actually produces for a given
environment: it only ever throws `KinstaAuthError`. -/
def loaderOutcomeOfEnv (env : Env) : LoaderOutcome :=
  match loadKinstaConfig env with
  | Except.ok config => LoaderOutcome.ok config
  | Except.error e => LoaderOutcome.authError e

/-- `getKinstaClient` (src/kinsta/client-factory.ts lines 45-71): computes
the hash from the live environment and resolves against the cache. The
`_extra` MCP context parameter is accepted, as in the source, and never
read. -/
def getKinstaClient {α : Type} (extra : α) (env : Env) (st : FactoryState) :
    KinstaClientResult × FactoryState :=
  let _ := extra
  getKinstaClientCore (loaderOutcomeOfEnv env) (getConfigHash env) st

/-- `getKinstaClientOrThrow` (src/kinsta/client-factory.ts lines 82-90):
same resolution, rethrowing the failure message as `Error(message)`. -/
def getKinstaClientOrThrow {α : Type} (extra : α) (env : Env) (st : FactoryState) :
    Except String KinstaClientHandle × FactoryState :=
  match getKinstaClient extra env st with
  | (KinstaClientResult.success client, st2) => (Except.ok client, st2)
  | (KinstaClientResult.failure e, st2) => (Except.error e, st2)

/-- Well-formedness of a factory state: any cached client was allocated
before the current allocation counter. Holds for the initial empty state
and is preserved by every call; it is what makes a freshly constructed
client distinct from any cached one. -/
def FactoryState.WF (st : FactoryState) : Prop :=
  ∀ c, st.cachedClient = some c → c.id < st.nextId

/-- One text block of a tool response (src/tools/utils.ts,
`ToolTextContent`); the `type` discriminant is always the string "text". -/
structure ToolTextContent where
  type : String
  text : String
deriving DecidableEq

/-- Error response shape of a tool (src/tools/utils.ts,
`ToolErrorResponse`). -/
structure ToolErrorResponse where
  isError : Bool
  content : List ToolTextContent
deriving DecidableEq

/-- The string form of an error code, as carried on `error.code` and used
for the `ERROR_MESSAGES` lookup key. -/
def KinstaErrorCode.codeString : KinstaErrorCode → String
  | KinstaErrorCode.UNAUTHORIZED => "UNAUTHORIZED"
  | KinstaErrorCode.FORBIDDEN => "FORBIDDEN"
  | KinstaErrorCode.NOT_FOUND => "NOT_FOUND"
  | KinstaErrorCode.RATE_LIMITED => "RATE_LIMITED"
  | KinstaErrorCode.VALIDATION_ERROR => "VALIDATION_ERROR"
  | KinstaErrorCode.SERVER_ERROR => "SERVER_ERROR"
  | KinstaErrorCode.NETWORK_ERROR => "NETWORK_ERROR"
  | KinstaErrorCode.TIMEOUT => "TIMEOUT"
  | KinstaErrorCode.UNKNOWN => "UNKNOWN"

/-- The `ERROR_MESSAGES` record (src/tools/utils.ts lines 56-62): friendly
overrides for exactly three codes; indexing with any other key yields
`undefined`. -/
def errorMessagesLookup (code : String) : Option String :=
  if code = "UNAUTHORIZED" then
    some "Your API key is invalid or expired. Generate a new one in MyKinsta > Company settings > API Keys."
  else if code = "FORBIDDEN" then
    some "Your API key does not have permission to access this resource."
  else if code = "RATE_LIMITED" then
    some "You have exceeded Kinsta\x27s rate limit. Please wait a moment before trying again."
  else
    none

/-- `formatError` (src/tools/utils.ts lines 70-94). The first branch
requires `error.code === "NOT_FOUND" && resourceType`, where the optional
`resourceType` string is truthy exactly when supplied and non-empty;
otherwise the `ERROR_MESSAGES` override applies when the code has one, and
the raw classified message remains last. The rendered text is always
prefixed with the code in parentheses. -/
def formatError (code : String) (message : String) (resourceType : Option String) :
    ToolErrorResponse :=
  let errorMessage :=
    if (code == "NOT_FOUND") && truthyStr resourceType then
      "The requested " ++ resourceType.getD "" ++ " was not found."
    else
      match errorMessagesLookup code with
      | some mapped => mapped
      | none => message
  { isError := true
    content := [{ type := "text", text := "Kinsta API Error (" ++ code ++ "): " ++ errorMessage }] }

/-- An empty factory cache, as at module load. -/
def factoryStateEmpty : FactoryState := ⟨none, none, 0⟩

/-- Example environment: both mandatory variables set, base URL unset. -/
def envWithBaseUnset : Env := ⟨some "k", some "c", none⟩

/-- Example environment: as `envWithBaseUnset` but with the base-URL
variable set to the empty string. -/
def envWithBaseEmpty : Env := ⟨some "k", some "c", some ""⟩

/-- Example environment: as `envWithBaseUnset` but with a different API
key. -/
def envWithOtherKey : Env := ⟨some "k2", some "c", none⟩

/-- The client the factory constructs on a first call under
`envWithBaseUnset` from the empty state. -/
def clientFirst : KinstaClientHandle := ⟨0, "k", "c", "https://api.kinsta.com/v2"⟩

/-- The factory state after that first successful call. -/
def factoryStateAfterFirst : FactoryState := ⟨some clientFirst, some "k:c:", 1⟩

/-- Helper: a successful miss-path call caches the constructed client with
the new hash, bumps the allocation counter, and the returned client is the
fresh allocation. -/
theorem getKinstaClientMiss_success_state
    (l : LoaderOutcome) (hash : String) (st st2 : FactoryState) (c : KinstaClientHandle)
    (h : getKinstaClientMiss l hash st = (KinstaClientResult.success c, st2)) :
    st2 = ⟨some c, some hash, st.nextId + 1⟩ ∧ c.id = st.nextId := by
  cases l <;> simp [getKinstaClientMiss, mkKinstaClient] at h
  obtain ⟨h1, h2⟩ := h
  subst h2
  constructor
  · rw [← h1]
  · rw [← h1]

/-- Helper: after any successful factory call the cache holds exactly the
returned client and the hash the call was resolved against, and
well-formedness of the allocation counter is preserved. -/
theorem getKinstaClientCore_success_state
    (l : LoaderOutcome) (hash : String) (st st2 : FactoryState) (c : KinstaClientHandle)
    (h : getKinstaClientCore l hash st = (KinstaClientResult.success c, st2)) :
    st2.cachedClient = some c ∧ st2.cachedConfigHash = some hash ∧ (st.WF → st2.WF) := by
  have hmiss : getKinstaClientMiss l hash st = (KinstaClientResult.success c, st2) →
      st2.cachedClient = some c ∧ st2.cachedConfigHash = some hash ∧ (st.WF → st2.WF) := by
    intro hm
    obtain ⟨h1, h2⟩ := getKinstaClientMiss_success_state _ _ _ _ _ hm
    subst h1
    refine ⟨rfl, rfl, fun _ => ?_⟩
    intro c2 hc2
    simp only [Option.some.injEq] at hc2
    subst hc2
    simp only [h2]
    exact Nat.lt_succ_self _
  rcases st with ⟨cc, ch, n⟩
  rcases cc with _ | client <;> rcases ch with _ | stored <;>
    simp only [getKinstaClientCore] at h ⊢
  case none.none | none.some | some.none => exact hmiss h
  case some.some =>
    by_cases hsh : stored = hash
    · rw [if_pos hsh] at h
      injection h with h1 h2
      injection h1 with h1
      subst h1
      subst h2
      subst hsh
      exact ⟨rfl, rfl, fun hwf => hwf⟩
    · rw [if_neg hsh] at h
      exact hmiss h

/-- Helper: a call whose hash matches the populated cache is a hit that
returns the cached client and leaves the state untouched. -/
theorem getKinstaClientCore_hit
    (l : LoaderOutcome) (hash : String) (st : FactoryState) (c : KinstaClientHandle)
    (h1 : st.cachedClient = some c) (h2 : st.cachedConfigHash = some hash) :
    getKinstaClientCore l hash st = (KinstaClientResult.success c, st) := by
  rcases st with ⟨cc, ch, n⟩
  simp only at h1 h2
  subst h1
  subst h2
  simp [getKinstaClientCore]

/-- Helper: a call whose hash differs from the stored one takes the miss
path even when a client is cached. -/
theorem getKinstaClientCore_stale
    (l : LoaderOutcome) (hash stored : String) (st : FactoryState) (c : KinstaClientHandle)
    (h1 : st.cachedClient = some c) (h2 : st.cachedConfigHash = some stored)
    (hne : stored ≠ hash) :
    getKinstaClientCore l hash st = getKinstaClientMiss l hash st := by
  rcases st with ⟨cc, ch, n⟩
  simp only at h1 h2
  subst h1
  subst h2
  simp [getKinstaClientCore, hne]

/-- C1 (amended): whenever the response body yields an extracted API
message, the Classified Error carries it verbatim in the separate
`apiMessage` field; and whenever that extracted message is non-empty, the
classified message is the status-determined base message with the
": <api message>" suffix appended. (The claim as stated also demanded the
suffix for an extracted empty-string message, which the truthiness check
in `suffix` skips — see the counterexample.) -/
theorem mapHttpError_apiMessage (status : Nat) (body : Option Json) (m : String)
    (hm : extractApiMessage body = some m) :
    (mapHttpError status body).apiMessage = some m ∧
    (m ≠ "" → (mapHttpError status body).message = (mapHttpError status none).message ++ ": " ++ m) := by
  have hnone : extractApiMessage none = none := rfl
  constructor
  · unfold mapHttpError
    rw [hm]
    split_ifs <;> rfl
  · intro hme
    unfold mapHttpError
    rw [hm, hnone]
    simp only [if_neg hme]
    split_ifs <;> simp only [String.append_empty, ← String.append_assoc]

/-- C1 witness: a 404 with body `{"message":"Site not found"}` yields
apiMessage "Site not found" and the suffixed classified message. -/
theorem mapHttpError_apiMessage_witness :
    (mapHttpError 404 (some (Json.obj [("message", Json.str "Site not found")]))).apiMessage = some "Site not found" ∧
    (mapHttpError 404 (some (Json.obj [("message", Json.str "Site not found")]))).message =
      (mapHttpError 404 none).message ++ ": " ++ "Site not found" := by
  have h := mapHttpError_apiMessage 404 (some (Json.obj [("message", Json.str "Site not found")])) "Site not found" rfl
  exact ⟨h.1, h.2 (by decide)⟩

/-- C1 counterexample: a 404 whose body is `{"message":""}` yields an
extracted API message (the empty string), which is stored in the
`apiMessage` field, yet the classified message is the bare base message —
the ": <api message>" suffix the claim demands is not appended, because
the code tests the extracted message for truthiness, not presence. -/
theorem mapHttpError_emptyApiMessage_cex :
    extractApiMessage (some (Json.obj [("message", Json.str "")])) = some "" ∧
    (mapHttpError 404 (some (Json.obj [("message", Json.str "")]))).apiMessage = some "" ∧
    (mapHttpError 404 (some (Json.obj [("message", Json.str "")]))).message = "Resource not found" ∧
    (mapHttpError 404 (some (Json.obj [("message", Json.str "")]))).message ≠
      (mapHttpError 404 none).message ++ ": " ++ "" := by
  refine ⟨rfl, rfl, rfl, ?_⟩
  decide

/-- C2 (amended): the fingerprint function is total (it is a function of
the environment record, defined by string concatenation alone), and it
maps an environment with the optional base-URL variable unset and the same
environment with that variable set to the empty string to the SAME
fingerprint string: `?? ""` replaces an absent field by the empty
placeholder, so "unset" and "set to empty string" alias. (The claim as
stated demanded two distinct fingerprints — see the counterexample.) -/
theorem getConfigHash_absent_aliases_empty (env : Env) :
    getConfigHash { env with KINSTA_API_BASE_URL := none } =
      getConfigHash { env with KINSTA_API_BASE_URL := some "" } := rfl

/-- C2 counterexample: two environments differing exactly in the base-URL
variable being unset versus set-but-empty get the same fingerprint,
refuting the claimed distinctness. -/
theorem getConfigHash_distinct_cex :
    getConfigHash ⟨some "k", some "c", none⟩ = getConfigHash ⟨some "k", some "c", some ""⟩ ∧
    (⟨some "k", some "c", none⟩ : Env) ≠ (⟨some "k", some "c", some ""⟩ : Env) := by
  constructor
  · rfl
  · decide

/-- C3: on the claim's domain ({401,403,404,429} ∪ [400,600) = [400,600)),
the classifier — a total function of the status and parsed body, hence
deterministic and never raising — produces exactly the claimed
(kind, retryable) pair for every status and every optional API message,
and records the original numeric status on the error. -/
theorem mapHttpError_classification (status : Nat) (body : Option Json)
    (h4 : 400 ≤ status) (h6 : status < 600) :
    ((mapHttpError status body).code, (mapHttpError status body).retryable) =
      (if status = 401 then (KinstaErrorCode.UNAUTHORIZED, false)
       else if status = 403 then (KinstaErrorCode.FORBIDDEN, false)
       else if status = 404 then (KinstaErrorCode.NOT_FOUND, false)
       else if status = 429 then (KinstaErrorCode.RATE_LIMITED, true)
       else if status < 500 then (KinstaErrorCode.VALIDATION_ERROR, false)
       else (KinstaErrorCode.SERVER_ERROR, true)) ∧
    (mapHttpError status body).statusCode = some status := by
  have hd : 400 ≤ status ∧ status < 600 := ⟨h4, h6⟩
  clear h4 h6
  unfold mapHttpError
  constructor
  · split_ifs <;> simp_all
  · split_ifs <;> rfl

/-- C3 witness: status 429 with no body message classifies as
RATE_LIMITED, retryable, with statusCode 429. -/
theorem mapHttpError_classification_witness :
    ((mapHttpError 429 none).code, (mapHttpError 429 none).retryable) = (KinstaErrorCode.RATE_LIMITED, true) ∧
    (mapHttpError 429 none).statusCode = some 429 := by
  have h := mapHttpError_classification 429 none (by decide) (by decide)
  exact ⟨h.1, h.2⟩

/-- C4 (amended): (a) after a successful `getKinstaClient` call, a second
call with an unchanged environment returns the very same client instance
and leaves the state untouched (no new construction); (b) at the core
level, that cache hit is independent of whatever the credential loader
would produce, so no credential re-loading is observable; (c) a call after
an environment change is a rebuild returning a genuinely different
instance provided the change alters the computed fingerprint and
credential loading succeeds under the new environment. (The claim as
stated promised a different instance after changing any one variable, but
a change that leaves the fingerprint unchanged — toggling the base URL
between unset and empty — is a cache hit; see the counterexample.) -/
theorem getKinstaClient_cache :
    (∀ (env : Env) (st st2 : FactoryState) (c : KinstaClientHandle),
       getKinstaClient () env st = (KinstaClientResult.success c, st2) →
       getKinstaClient () env st2 = (KinstaClientResult.success c, st2)) ∧
    (∀ (l l2 : LoaderOutcome) (hash : String) (st st2 : FactoryState) (c : KinstaClientHandle),
       getKinstaClientCore l hash st = (KinstaClientResult.success c, st2) →
       getKinstaClientCore l2 hash st2 = (KinstaClientResult.success c, st2)) ∧
    (∀ (env env2 : Env) (st st2 : FactoryState) (c : KinstaClientHandle) (cfg : KinstaConfig),
       st.WF →
       getKinstaClient () env st = (KinstaClientResult.success c, st2) →
       getConfigHash env2 ≠ getConfigHash env →
       loadKinstaConfig env2 = Except.ok cfg →
       getKinstaClient () env2 st2 =
         (KinstaClientResult.success (mkKinstaClient st2.nextId cfg),
          ⟨some (mkKinstaClient st2.nextId cfg), some (getConfigHash env2), st2.nextId + 1⟩) ∧
       mkKinstaClient st2.nextId cfg ≠ c) := by
  have key : ∀ (l l2 : LoaderOutcome) (hash : String) (st st2 : FactoryState) (c : KinstaClientHandle),
      getKinstaClientCore l hash st = (KinstaClientResult.success c, st2) →
      getKinstaClientCore l2 hash st2 = (KinstaClientResult.success c, st2) := by
    intro l l2 hash st st2 c h
    obtain ⟨hc, hh, _⟩ := getKinstaClientCore_success_state l hash st st2 c h
    exact getKinstaClientCore_hit l2 hash st2 c hc hh
  refine ⟨fun env st st2 c h => key _ _ _ _ _ _ h, key, ?_⟩
  intro env env2 st st2 c cfg hwf h hne hload
  have hcore : getKinstaClientCore (loaderOutcomeOfEnv env) (getConfigHash env) st =
      (KinstaClientResult.success c, st2) := h
  obtain ⟨hc, hh, hwf2⟩ := getKinstaClientCore_success_state _ _ _ _ _ hcore
  have hl2 : loaderOutcomeOfEnv env2 = LoaderOutcome.ok cfg := by
    unfold loaderOutcomeOfEnv
    rw [hload]
  constructor
  · show getKinstaClientCore (loaderOutcomeOfEnv env2) (getConfigHash env2) st2 = _
    rw [getKinstaClientCore_stale _ _ _ _ _ hc hh (fun he => hne he.symm), hl2]
    simp [getKinstaClientMiss]
  · intro heq
    have hid : c.id < st2.nextId := hwf2 hwf c hc
    rw [← heq] at hid
    exact Nat.lt_irrefl _ hid

/-- C4 witness: from the empty state, a first call under `envWithBaseUnset`
succeeds; repeating it returns the identical instance and state, and a
call after changing the API key both constructs and returns a distinct
instance. -/
theorem getKinstaClient_cache_witness :
    getKinstaClient () envWithBaseUnset factoryStateAfterFirst =
      (KinstaClientResult.success clientFirst, factoryStateAfterFirst) ∧
    (getKinstaClient () envWithOtherKey factoryStateAfterFirst =
       (KinstaClientResult.success (mkKinstaClient 1 ⟨"k2", "c", "https://api.kinsta.com/v2"⟩),
        ⟨some (mkKinstaClient 1 ⟨"k2", "c", "https://api.kinsta.com/v2"⟩), some "k2:c:", 2⟩) ∧
     mkKinstaClient 1 ⟨"k2", "c", "https://api.kinsta.com/v2"⟩ ≠ clientFirst) := by
  constructor
  · exact getKinstaClient_cache.1 envWithBaseUnset factoryStateEmpty factoryStateAfterFirst clientFirst (by decide)
  · have h := getKinstaClient_cache.2.2 envWithBaseUnset envWithOtherKey factoryStateEmpty
      factoryStateAfterFirst clientFirst ⟨"k2", "c", "https://api.kinsta.com/v2"⟩
      (fun c hc => nomatch hc) (by decide) (by decide) (by rfl)
    exact h

/-- C4 counterexample: after a successful call with the base-URL variable
unset, changing that variable to the empty string (a change of one of the
three named environment variables) does NOT construct or return a
different instance: the fingerprint is unchanged, so the second call is a
cache hit returning the same instance with no new construction. -/
theorem getKinstaClient_unsetEmptyBaseUrl_cex :
    getKinstaClient () envWithBaseUnset factoryStateEmpty =
      (KinstaClientResult.success clientFirst, factoryStateAfterFirst) ∧
    envWithBaseUnset.KINSTA_API_BASE_URL ≠ envWithBaseEmpty.KINSTA_API_BASE_URL ∧
    getKinstaClient () envWithBaseEmpty factoryStateAfterFirst =
      (KinstaClientResult.success clientFirst, factoryStateAfterFirst) := by
  exact ⟨by decide, by decide, by decide⟩

/-- C5: whenever the hash check cannot hit (no cached client, or a stored
hash differing from the fresh one), a credential-loader failure of any of
the three categories makes `getKinstaClient` return — not raise — a
failure result whose message is respectively the loader's own
`KinstaAuthError` message, the thrown `Error` message, or the fixed
"Unknown auth error" fallback, and in every case both cache slots are
cleared. (`getKinstaClientCore` is a total function, so no call raises.) -/
theorem getKinstaClient_loaderFailure (hash : String) (st : FactoryState)
    (hmiss : st.cachedClient = none ∨ st.cachedConfigHash ≠ some hash) :
    (∀ e : KinstaAuthError,
       getKinstaClientCore (LoaderOutcome.authError e) hash st =
         (KinstaClientResult.failure e.message, ⟨none, none, st.nextId⟩)) ∧
    (∀ m : String,
       getKinstaClientCore (LoaderOutcome.thrownError m) hash st =
         (KinstaClientResult.failure m, ⟨none, none, st.nextId⟩)) ∧
    getKinstaClientCore LoaderOutcome.thrownNonError hash st =
      (KinstaClientResult.failure "Unknown auth error", ⟨none, none, st.nextId⟩) := by
  have hred : ∀ l : LoaderOutcome, getKinstaClientCore l hash st = getKinstaClientMiss l hash st := by
    intro l
    rcases st with ⟨cc, ch, n⟩
    rcases cc with _ | client <;> rcases ch with _ | stored <;>
      simp only [getKinstaClientCore]
    rcases hmiss with hmc | hmh
    · simp at hmc
    · simp only at hmh
      rw [if_neg (fun he => hmh (by rw [he]))]
  exact ⟨fun e => by rw [hred]; rfl, fun m => by rw [hred]; rfl, by rw [hred]; rfl⟩

/-- C5 witness: from a populated-free cache, each loader failure category
produces its message and a fully cleared cache. -/
theorem getKinstaClient_loaderFailure_witness :
    getKinstaClientCore (LoaderOutcome.authError ⟨"Missing API key", KinstaAuthErrorCode.NO_API_KEY⟩) "k:c:" factoryStateEmpty =
      (KinstaClientResult.failure "Missing API key", ⟨none, none, 0⟩) ∧
    getKinstaClientCore (LoaderOutcome.thrownError "Something went wrong") "k:c:" factoryStateEmpty =
      (KinstaClientResult.failure "Something went wrong", ⟨none, none, 0⟩) ∧
    getKinstaClientCore LoaderOutcome.thrownNonError "k:c:" factoryStateEmpty =
      (KinstaClientResult.failure "Unknown auth error", ⟨none, none, 0⟩) := by
  have h := getKinstaClient_loaderFailure "k:c:" factoryStateEmpty (Or.inl rfl)
  exact ⟨h.1 _, h.2.1 _, h.2.2⟩

/-- C6: a request whose transport does not settle before the fixed timeout
resolves — `request` is a total function, so it never throws — to a
failure envelope with kind TIMEOUT and retryable true (the timer fires,
the abort signal rejects the pending fetch with an AbortError, and the
catch classifies it), and on every exit path of `request` (success,
failure envelope, or caught exception) the timeout handle is cleared by
the `finally` before the call resolves. -/
theorem request_timeout_contract :
    request FetchOutcome.hangsPastTimeout =
      { result := KinstaResult.failure
          { message := "Request timed out", code := KinstaErrorCode.TIMEOUT,
            statusCode := none, retryable := true, apiMessage := none },
        timerCleared := true } ∧
    ∀ o : FetchOutcome, (request o).timerCleared = true :=
  ⟨rfl, fun _ => rfl⟩

/-- C7: a response with a success status whose body fails JSON parsing
makes `request` return — not throw, and not wrap as success — a failure
envelope with kind UNKNOWN, retryable false, and the fixed message naming
the non-JSON response. -/
theorem request_nonJsonSuccessBody (resp : ResponseData)
    (hok : respOk resp.status = true) (hbody : resp.body = none) :
    request (FetchOutcome.completes resp) =
      { result := KinstaResult.failure
          { message := "Received non-JSON response from the Kinsta API",
            code := KinstaErrorCode.UNKNOWN, statusCode := some resp.status,
            retryable := false, apiMessage := none },
        timerCleared := true } := by
  simp [request, hok, hbody]

/-- C7 witness: a 200 response with an unparsable body yields the UNKNOWN
failure envelope. -/
theorem request_nonJsonSuccessBody_witness :
    request (FetchOutcome.completes ⟨200, none⟩) =
      { result := KinstaResult.failure
          { message := "Received non-JSON response from the Kinsta API",
            code := KinstaErrorCode.UNKNOWN, statusCode := some 200,
            retryable := false, apiMessage := none },
        timerCleared := true } :=
  request_nonJsonSuccessBody ⟨200, none⟩ (by decide) rfl

/-- C8 (amended): the failure formatter picks the message by priority —
(1) kind NOT_FOUND with a supplied NON-EMPTY resource noun synthesizes
"The requested <noun> was not found."; (2) else the fixed friendly
override for UNAUTHORIZED, FORBIDDEN, or RATE_LIMITED; (3) else the raw
classified message — always prefixed with the kind in parentheses; and
formatting any classified 404 error with noun "site" renders exactly
"Kinsta API Error (NOT_FOUND): The requested site was not found.".
(The claim as stated let priority (1) fire for any supplied noun, but a
supplied empty noun is falsy and falls through to the raw message — see
the counterexample.) -/
theorem formatError_priority :
    (∀ (msg n : String), n ≠ "" →
       formatError "NOT_FOUND" msg (some n) =
         ⟨true, [⟨"text", "Kinsta API Error (NOT_FOUND): The requested " ++ n ++ " was not found."⟩]⟩) ∧
    (∀ (code msg : String) (rt : Option String) (ovr : String),
       ¬(code = "NOT_FOUND" ∧ truthyStr rt = true) →
       errorMessagesLookup code = some ovr →
       formatError code msg rt = ⟨true, [⟨"text", "Kinsta API Error (" ++ code ++ "): " ++ ovr⟩]⟩) ∧
    (∀ (code msg : String) (rt : Option String),
       ¬(code = "NOT_FOUND" ∧ truthyStr rt = true) →
       errorMessagesLookup code = none →
       formatError code msg rt = ⟨true, [⟨"text", "Kinsta API Error (" ++ code ++ "): " ++ msg⟩]⟩) ∧
    (∀ body : Option Json,
       formatError (mapHttpError 404 body).code.codeString (mapHttpError 404 body).message (some "site") =
         ⟨true, [⟨"text", "Kinsta API Error (NOT_FOUND): The requested site was not found."⟩]⟩) := by
  have p1 : ∀ (msg n : String), n ≠ "" →
      formatError "NOT_FOUND" msg (some n) =
        ⟨true, [⟨"text", "Kinsta API Error (NOT_FOUND): The requested " ++ n ++ " was not found."⟩]⟩ := by
    intro msg n hn
    simp [formatError, truthyStr, hn, ← String.append_assoc]
  refine ⟨p1, ?_, ?_, ?_⟩
  · intro code msg rt ovr hnot hovr
    have hcond : ((code == "NOT_FOUND") && truthyStr rt) = false := by
      by_contra hc
      rw [Bool.not_eq_false, Bool.and_eq_true, beq_iff_eq] at hc
      exact hnot ⟨hc.1, hc.2⟩
    simp [formatError, hcond, hovr]
  · intro code msg rt hnot hovr
    have hcond : ((code == "NOT_FOUND") && truthyStr rt) = false := by
      by_contra hc
      rw [Bool.not_eq_false, Bool.and_eq_true, beq_iff_eq] at hc
      exact hnot ⟨hc.1, hc.2⟩
    simp [formatError, hcond, hovr]
  · intro body
    have hcode : (mapHttpError 404 body).code = KinstaErrorCode.NOT_FOUND := by
      unfold mapHttpError
      rfl
    rw [hcode]
    exact p1 _ "site" (by decide)

/-- C8 witness: the noun-substituted 404 rendering (also via the
classifier), the UNAUTHORIZED friendly override, and the raw-message
fallback for a kind without an override. -/
theorem formatError_priority_witness :
    formatError "NOT_FOUND" "Resource not found: x not found" (some "site") =
      ⟨true, [⟨"text", "Kinsta API Error (NOT_FOUND): The requested site was not found."⟩]⟩ ∧
    formatError "UNAUTHORIZED" "Invalid or expired API key" none =
      ⟨true, [⟨"text", "Kinsta API Error (UNAUTHORIZED): Your API key is invalid or expired. Generate a new one in MyKinsta > Company settings > API Keys."⟩]⟩ ∧
    formatError "TIMEOUT" "Request timed out" none =
      ⟨true, [⟨"text", "Kinsta API Error (TIMEOUT): Request timed out"⟩]⟩ ∧
    formatError (mapHttpError 404 none).code.codeString (mapHttpError 404 none).message (some "site") =
      ⟨true, [⟨"text", "Kinsta API Error (NOT_FOUND): The requested site was not found."⟩]⟩ := by
  refine ⟨?_, ?_, ?_, formatError_priority.2.2.2 none⟩
  · exact formatError_priority.1 "Resource not found: x not found" "site" (by decide)
  · exact formatError_priority.2.1 "UNAUTHORIZED" "Invalid or expired API key" none _ (by simp) rfl
  · exact formatError_priority.2.2.1 "TIMEOUT" "Request timed out" none (by simp) rfl

/-- C8 counterexample: with kind NOT_FOUND and a supplied empty resource
noun, the formatter renders the raw classified message, not the
synthesized "The requested <noun> was not found." sentence the claim's
priority (1) demands for every supplied noun. -/
theorem formatError_emptyNoun_cex :
    formatError "NOT_FOUND" "Resource not found" (some "") =
      ⟨true, [⟨"text", "Kinsta API Error (NOT_FOUND): Resource not found"⟩]⟩ ∧
    formatError "NOT_FOUND" "Resource not found" (some "") ≠
      ⟨true, [⟨"text", "Kinsta API Error (NOT_FOUND): The requested  was not found."⟩]⟩ := by
  exact ⟨by decide, by decide⟩

/-- C9: credential loading fails with the NO_API_KEY error — whose message
names KINSTA_API_KEY and where to generate one — exactly when the API-key
variable is unset or empty; fails with the distinguishable NO_COMPANY_ID
error — whose message names KINSTA_COMPANY_ID and where to find it —
exactly when the key is present but the tenant variable is unset or empty;
and when both are present it returns them with the base URL taken from the
override variable when set, else the production default. -/
theorem loadKinstaConfig_spec (env : Env) :
    (loadKinstaConfig env = Except.error ⟨apiKeyRequiredMessage, KinstaAuthErrorCode.NO_API_KEY⟩ ↔
       truthyStr env.KINSTA_API_KEY = false) ∧
    (loadKinstaConfig env = Except.error ⟨companyIdRequiredMessage, KinstaAuthErrorCode.NO_COMPANY_ID⟩ ↔
       truthyStr env.KINSTA_API_KEY = true ∧ truthyStr env.KINSTA_COMPANY_ID = false) ∧
    (truthyStr env.KINSTA_API_KEY = true → truthyStr env.KINSTA_COMPANY_ID = true →
       loadKinstaConfig env =
         Except.ok ⟨env.KINSTA_API_KEY.getD "", env.KINSTA_COMPANY_ID.getD "",
                    env.KINSTA_API_BASE_URL.getD KINSTA_API_BASE_URL⟩) := by
  have hmsg : apiKeyRequiredMessage ≠ companyIdRequiredMessage := by decide
  rcases hk : truthyStr env.KINSTA_API_KEY with _ | _
  · simp [loadKinstaConfig, hk, hmsg]
  · rcases hc : truthyStr env.KINSTA_COMPANY_ID with _ | _
    · simp [loadKinstaConfig, hk, hc, hmsg.symm]
    · simp [loadKinstaConfig, hk, hc]

/-- C9 witness: a fully set environment loads with the default base URL,
a missing key yields the NO_API_KEY error, and a missing company ID with a
key present yields the NO_COMPANY_ID error. -/
theorem loadKinstaConfig_spec_witness :
    loadKinstaConfig ⟨some "test-key", some "company-123", none⟩ =
      Except.ok ⟨"test-key", "company-123", "https://api.kinsta.com/v2"⟩ ∧
    loadKinstaConfig ⟨none, some "company-123", none⟩ =
      Except.error ⟨apiKeyRequiredMessage, KinstaAuthErrorCode.NO_API_KEY⟩ ∧
    loadKinstaConfig ⟨some "test-key", none, none⟩ =
      Except.error ⟨companyIdRequiredMessage, KinstaAuthErrorCode.NO_COMPANY_ID⟩ := by
  refine ⟨(loadKinstaConfig_spec _).2.2 (by decide) (by decide),
          (loadKinstaConfig_spec _).1.mpr (by decide),
          (loadKinstaConfig_spec _).2.1.mpr ⟨by decide, by decide⟩⟩

/-- C10: the result of `getKinstaClient` (and of `getKinstaClientOrThrow`)
is independent of the `extra` context argument: any two context values, of
any types, given the same environment and cache state, produce the same
result and the same final state — resolution depends only on the
environment and the cache slot. -/
theorem getKinstaClient_contextIndependent {α β : Type} (e1 : α) (e2 : β)
    (env : Env) (st : FactoryState) :
    getKinstaClient e1 env st = getKinstaClient e2 env st ∧
    getKinstaClientOrThrow e1 env st = getKinstaClientOrThrow e2 env st :=
  ⟨rfl, rfl⟩

end KinstaMcp
